import Mathlib

/-!
Shallow embedding of the gorilla/handlers CORS middleware (cors.go, the
functional-options variant: type cors, cors.ServeHTTP, the CORSOption
constructors and parseCORSOptions), together with theorems checking the
natural-language specification against it.

Modelling conventions:
* Go strings are Lean String values.  strings.Split is String.splitOn,
  strings.Join is String.intercalate, strings.TrimSpace is String.trim
  (both trim whitespace; the Go version also trims non-ASCII Unicode
  space, which never occurs in the inputs considered here), and
  strings.ToUpper is String.toUpper (ASCII letters, as in Go for ASCII
  input).
* http.Header (a Go map from canonical header keys to value slices) is
  an association list; map indexing, Get and key-membership are find?
  based.  The response header map, which the handler only writes through
  Header().Set, is an association list of single values where Set
  removes the old entry for the key and appends the new one, which is
  exactly the observable behaviour of updating a Go map entry.
* The outcome of one call of cors.ServeHTTP is a CorsResult: the status
  code written by the engine (200 when the engine never calls
  WriteHeader, since the recorder and the real server default to 200),
  the response headers set by the engine, and whether the wrapped
  handler ch.h was invoked.  The Go code registers
  defer func() { handler.ServeHTTP(w, r) } after the origin check and
  replaces handler by a no-op function for intercepted OPTIONS
  requests, so wrappedInvoked is true exactly on the paths where the
  deferred call still points at the wrapped handler; on the
  disallowed-origin path the return happens before the defer statement
  runs, so nothing is invoked there either.
* CORSOption in Go is func(*cors) error; every constructor in the
  source always returns nil, so options are modelled as pure state
  transformers cors -> cors.
-/

/-- Go textproto validHeaderFieldByte: letters, digits and the token
punctuation characters allowed in an HTTP header field name (the table
isTokenTable in net/textproto).  The two characters with codes 39 and 96
(single quote and grave accent) are written by code point. -/
def validHeaderFieldChar (c : Char) : Bool :=
  c.isAlphanum ||
  c = '!' || c = '#' || c = '$' || c = '%' || c = '&' || c = '*' ||
  c = '+' || c = '-' || c = '.' || c = '^' || c = '_' || c = '|' ||
  c = '~' || c.toNat = 39 || c.toNat = 96

/-- Character transformation loop of Go textproto canonicalMIMEHeaderKey:
a letter is uppercased at the start and after a hyphen, lowercased
elsewhere; the upper flag for the next character is set by comparing the
written character with the hyphen. -/
def canonicalChars : List Char → Bool → List Char
  | [], _ => []
  | c :: cs, upper =>
    let c2 := if upper then c.toUpper else c.toLower
    c2 :: canonicalChars cs (c2 == '-')

/-- Go http.CanonicalHeaderKey: returns the argument unchanged when it
contains a character that is not a valid header field byte, otherwise
canonicalizes the case as in canonicalChars. -/
def CanonicalHeaderKey (s : String) : String :=
  if s.toList.all validHeaderFieldChar then (canonicalChars s.toList true).asString
  else s

/-- Whitespace as trimmed by Go strings.TrimSpace, ASCII fragment:
space and the control characters with codes 9 to 13. -/
def isSpaceChar (c : Char) : Bool :=
  c = ' ' || (9 ≤ c.toNat && c.toNat ≤ 13)

/-- Go strings.TrimSpace: drop leading and trailing whitespace (the Go
version also trims non-ASCII Unicode space, which never occurs in the
inputs considered here). -/
def trimSpace (s : String) : String :=
  (((s.toList.dropWhile isSpaceChar).reverse.dropWhile isSpaceChar).reverse).asString

/-- Go strings.Split with separator comma: the accumulator collects the
current field in reverse. -/
def splitCommaAux : List Char → List Char → List String
  | [], acc => [acc.reverse.asString]
  | c :: cs, acc =>
    if c = ',' then acc.reverse.asString :: splitCommaAux cs []
    else splitCommaAux cs (c :: acc)

/-- Go strings.Split(s, ","): on the empty string this yields the
singleton list of the empty string, as in Go. -/
def splitComma (s : String) : List String := splitCommaAux s.toList []

/-- Go strings.Join(l, ","). -/
def joinComma : List String → String
  | [] => ""
  | [a] => a
  | a :: rest => a ++ "," ++ joinComma rest

/-- Go strings.ToUpper (ASCII letters, as Go maps them for ASCII
input). -/
def stringsToUpper (s : String) : String :=
  (s.toList.map Char.toUpper).asString

/-- Decimal digits of a positive number, most significant first; the
first argument is fuel, always called with fuel at least the value. -/
def natDigits : Nat → Nat → List Char
  | 0, _ => []
  | fuel + 1, n =>
    if n = 0 then [] else natDigits fuel (n / 10) ++ [Char.ofNat (48 + n % 10)]

/-- Go strconv.Itoa on int. -/
def itoa (i : Int) : String :=
  if i < 0 then "-" ++ (natDigits i.natAbs i.natAbs).asString
  else if i = 0 then "0"
  else (natDigits i.natAbs i.natAbs).asString

/-- CORS policy state, struct cors of cors.go (without the wrapped
handler field h, which is tracked through CorsResult.wrappedInvoked). -/
structure cors where
  allowedHeaders : List String
  allowedMethods : List String
  allowedOrigins : List String
  exposedHeaders : List String
  maxAge : Int
  ignoreOptions : Bool
  allowCredentials : Bool
deriving DecidableEq

/-- CORSOption: functional option for configuring the CORS middleware;
every option in the source returns a nil error, so it is a pure state
transformer here. -/
abbrev CORSOption : Type := cors → cors

def defaultCorsMethods : List String := ["GET", "HEAD", "POST"]

def defaultCorsHeaders : List String := ["Accept", "Accept-Language", "Content-Language"]

def corsOptionMethod : String := "OPTIONS"
def corsAllowOriginHeader : String := "Access-Control-Allow-Origin"
def corsExposeHeadersHeader : String := "Access-Control-Expose-Headers"
def corsMaxAgeHeader : String := "Access-Control-Max-Age"
def corsAllowMethodsHeader : String := "Access-Control-Allow-Methods"
def corsAllowHeadersHeader : String := "Access-Control-Allow-Headers"
def corsAllowCredentialsHeader : String := "Access-Control-Allow-Credentials"
def corsRequestMethodHeader : String := "Access-Control-Request-Method"
def corsRequestHeadersHeader : String := "Access-Control-Request-Headers"
def corsOriginHeader : String := "Origin"
def corsVaryHeader : String := "Vary"
def corsOriginMatchAll : String := "*"

/-- Request header map: association list from canonical header key to
the slice of values, as in the Go map http.Header. -/
abbrev ReqHeader : Type := List (String × List String)

/-- Go http.Header.Get: first value of the entry for the key, or the
empty string when the key is absent or its slice is empty. -/
def ReqHeader.get (h : ReqHeader) (key : String) : String :=
  match h.find? (fun p => p.1 == key) with
  | some p => p.2.headD ""
  | none => ""

/-- Go map key membership, the ok of the two-valued index expression. -/
def ReqHeader.containsKey (h : ReqHeader) (key : String) : Bool :=
  h.any (fun p => p.1 == key)

/-- Inbound HTTP request: the method and the header map, the only parts
cors.ServeHTTP reads. -/
structure Request where
  method : String
  headers : ReqHeader

/-- Response header map written through Header().Set: association list
with one value per key. -/
abbrev RespHeader : Type := List (String × String)

/-- Go Header().Set: replace the entry for the key (remove any old
entry, append the new one; key order in a Go map is not observable). -/
def setHeader (hs : RespHeader) (key value : String) : RespHeader :=
  hs.filter (fun p => !(p.1 == key)) ++ [(key, value)]

/-- Value of a response header, none when it was never set. -/
def respGet (hs : RespHeader) (key : String) : Option String :=
  (hs.find? (fun p => p.1 == key)).map (fun p => p.2)

/-- Observable outcome of one cors.ServeHTTP call (see the module
comment). -/
structure CorsResult where
  status : Nat
  headers : RespHeader
  wrappedInvoked : Bool
deriving DecidableEq

/-- Rejection outcome: w.WriteHeader(code) and return with no headers
set and without invoking the wrapped handler. -/
def corsReject (code : Nat) : CorsResult :=
  { status := code, headers := [], wrappedInvoked := false }

/-- cors.isMatch: linear search of needle in haystack (cors.go lines
349 to 357; the receiver is unused in the source). -/
def cors.isMatch (needle : String) (haystack : List String) : Bool :=
  haystack.any (fun v => v == needle)

/-- cors.isOriginAllowed (cors.go lines 335 to 347): the empty origin is
never allowed; otherwise the origin must equal an entry of
allowedOrigins or an entry must be the wildcard. -/
def cors.isOriginAllowed (ch : cors) (origin : String) : Bool :=
  if origin == "" then false
  else ch.allowedOrigins.any
    (fun allowedOrigin => allowedOrigin == origin || allowedOrigin == corsOriginMatchAll)

/-- Loop over Access-Control-Request-Headers entries (cors.go lines 143
to 157): skip empty and safelisted entries, abort with 403 (none here)
at the first entry not present in allowedHeaders, otherwise collect the
canonical entries in order. -/
def collectAllowedHeaders (ch : cors) : List String → Option (List String)
  | [] => some []
  | v :: rest =>
    let canonicalHeader := CanonicalHeaderKey (trimSpace v)
    if canonicalHeader == "" || cors.isMatch canonicalHeader defaultCorsHeaders then
      collectAllowedHeaders ch rest
    else if cors.isMatch canonicalHeader ch.allowedHeaders = false then
      none
    else
      (collectAllowedHeaders ch rest).map (fun hs => canonicalHeader :: hs)

/-- Preflight response headers assembled on the successful OPTIONS path
(cors.go lines 159 to 169): Allow-Headers when the collected list is
nonempty, Max-Age when positive, Allow-Methods when the requested method
is not safelisted. -/
def preflightHeaders (ch : cors) (method : String) (allowed : List String) : RespHeader :=
  let h1 := if allowed.length > 0 then
      setHeader [] corsAllowHeadersHeader (joinComma allowed)
    else []
  let h2 := if ch.maxAge > 0 then setHeader h1 corsMaxAgeHeader (itoa ch.maxAge) else h1
  if cors.isMatch method defaultCorsMethods = false then
    setHeader h2 corsAllowMethodsHeader method
  else h2

/-- Response headers of the non-OPTIONS branch (cors.go lines 170 to
174): Expose-Headers when configured. -/
def simpleHeaders (ch : cors) : RespHeader :=
  if ch.exposedHeaders.length > 0 then
    setHeader [] corsExposeHeadersHeader (joinComma ch.exposedHeaders)
  else []

/-- Trailing header writes of cors.ServeHTTP (cors.go lines 176 to 184):
Allow-Credentials when enabled, Vary: Origin when more than one origin
is configured, and always Allow-Origin set to the request origin. -/
def corsFinish (ch : cors) (origin : String) (hs : RespHeader) : RespHeader :=
  let h1 := if ch.allowCredentials = true then
      setHeader hs corsAllowCredentialsHeader "true"
    else hs
  let h2 := if ch.allowedOrigins.length > 1 then
      setHeader h1 corsVaryHeader corsOriginHeader
    else h1
  setHeader h2 corsAllowOriginHeader origin

/-- cors.ServeHTTP (cors.go lines 113 to 185).  The early returns of the
Go code are flattened into nested conditionals; the handler variable of
the deferred call is tracked by wrappedInvoked (see the module
comment). -/
def cors.ServeHTTP (ch : cors) (r : Request) : CorsResult :=
  let origin := ReqHeader.get r.headers corsOriginHeader
  if cors.isOriginAllowed ch origin = false then corsReject 400
  else if r.method = corsOptionMethod then
    if ch.ignoreOptions = true then
      { status := 200, headers := [], wrappedInvoked := true }
    else if ReqHeader.containsKey r.headers corsRequestMethodHeader = false then
      corsReject 400
    else
      let method := ReqHeader.get r.headers corsRequestMethodHeader
      if cors.isMatch method ch.allowedMethods = false then corsReject 405
      else
        match collectAllowedHeaders ch
            (splitComma (ReqHeader.get r.headers corsRequestHeadersHeader)) with
        | none => corsReject 403
        | some allowed =>
          { status := 200
            headers := corsFinish ch origin (preflightHeaders ch method allowed)
            wrappedInvoked := false }
  else
    { status := 200
      headers := corsFinish ch origin (simpleHeaders ch)
      wrappedInvoked := true }

/-- AllowedHeaders option (cors.go lines 241 to 256): canonicalize and
trim each entry, skip empty ones, append those not already present. -/
def AllowedHeaders (headers : List String) : CORSOption := fun ch =>
  headers.foldl (fun ch v =>
    let normalizedHeader := CanonicalHeaderKey (trimSpace v)
    if normalizedHeader == "" then ch
    else if cors.isMatch normalizedHeader ch.allowedHeaders = false then
      { ch with allowedHeaders := ch.allowedHeaders ++ [normalizedHeader] }
    else ch) ch

/-- AllowedMethods option (cors.go lines 259 to 274): uppercase and trim
each entry, skip empty ones, and - exactly as the source does on line
268 - append the normalized method to ch.allowedHeaders, not to
ch.allowedMethods, when it is not already in ch.allowedMethods. -/
def AllowedMethods (methods : List String) : CORSOption := fun ch =>
  methods.foldl (fun ch v =>
    let normalizedMethod := stringsToUpper (trimSpace v)
    if normalizedMethod == "" then ch
    else if cors.isMatch normalizedMethod ch.allowedMethods = false then
      { ch with allowedHeaders := ch.allowedHeaders ++ [normalizedMethod] }
    else ch) ch

/-- AllowedOrigins option (cors.go lines 279 to 291): the wildcard
anywhere in the list commits the singleton wildcard list, otherwise the
given list is committed as is. -/
def AllowedOrigins (origins : List String) : CORSOption := fun ch =>
  if origins.any (fun v => v == corsOriginMatchAll) then
    { ch with allowedOrigins := [corsOriginMatchAll] }
  else
    { ch with allowedOrigins := origins }

/-- ExposedHeaders option (cors.go lines 295 to 300). -/
def ExposedHeaders (headers : List String) : CORSOption := fun ch =>
  { ch with exposedHeaders := headers }

/-- MaxAge option (cors.go lines 305 to 315): values above 600 are
clamped to 600 before being committed. -/
def MaxAge (age : Int) : CORSOption := fun ch =>
  { ch with maxAge := if age > 600 then 600 else age }

/-- IgnoreOptions option (cors.go lines 320 to 325). -/
def IgnoreOptions : CORSOption := fun ch =>
  { ch with ignoreOptions := true }

/-- AllowCredentials option (cors.go lines 328 to 333). -/
def AllowCredentials : CORSOption := fun ch =>
  { ch with allowCredentials := true }

/-- Initial cors value inside parseCORSOptions (cors.go lines 221 to
225): the safelisted methods and headers, the wildcard origin and Go
zero values for the remaining fields. -/
def corsDefault : cors :=
  { allowedHeaders := defaultCorsHeaders
    allowedMethods := defaultCorsMethods
    allowedOrigins := [corsOriginMatchAll]
    exposedHeaders := []
    maxAge := 0
    ignoreOptions := false
    allowCredentials := false }

/-- parseCORSOptions (cors.go lines 220 to 232): fold the options over
the default state. -/
def parseCORSOptions (opts : List CORSOption) : cors :=
  opts.foldl (fun ch option => option ch) corsDefault

/-!
Lemmas about the response header map and the header-assembly helpers.
-/

theorem respGet_nil (k : String) : respGet [] k = none := rfl

theorem respGet_setHeader_same (hs : RespHeader) (k v : String) :
    respGet (setHeader hs k v) k = some v := by
  unfold setHeader respGet
  induction hs with
  | nil => simp
  | cons p t ih =>
    cases hp : (p.1 == k) with
    | false => simp [List.filter_cons, hp, List.find?_cons, ih]
    | true => simp [List.filter_cons, hp, ih]

theorem respGet_setHeader_ne (hs : RespHeader) (k v k' : String) (h : k' ≠ k) :
    respGet (setHeader hs k v) k' = respGet hs k' := by
  have hkk : (k == k') = false := by
    simp only [beq_eq_false_iff_ne]
    exact Ne.symm h
  unfold setHeader respGet
  induction hs with
  | nil => simp [List.find?_cons, hkk]
  | cons p t ih =>
    cases hp : (p.1 == k) with
    | false =>
      cases hp' : (p.1 == k') with
      | false => simpa [List.filter_cons, hp, hp', List.find?_cons] using ih
      | true => simp [List.filter_cons, hp, hp', List.find?_cons]
    | true =>
      have hpk : p.1 = k := by simpa [beq_iff_eq] using hp
      have hp' : (p.1 == k') = false := by
        simp [beq_iff_eq, hpk]
        exact fun hh => h hh.symm
      simpa [List.filter_cons, hp, hp', List.find?_cons] using ih

theorem respGet_corsFinish_allowOrigin (ch : cors) (origin : String) (hs : RespHeader) :
    respGet (corsFinish ch origin hs) corsAllowOriginHeader = some origin := by
  unfold corsFinish
  exact respGet_setHeader_same _ _ _

theorem respGet_corsFinish_other (ch : cors) (origin : String) (hs : RespHeader) (k : String)
    (h1 : k ≠ corsAllowCredentialsHeader) (h2 : k ≠ corsVaryHeader)
    (h3 : k ≠ corsAllowOriginHeader) :
    respGet (corsFinish ch origin hs) k = respGet hs k := by
  unfold corsFinish
  rw [respGet_setHeader_ne _ _ _ _ h3]
  by_cases hV : ch.allowedOrigins.length > 1
  · rw [if_pos hV, respGet_setHeader_ne _ _ _ _ h2]
    by_cases hC : ch.allowCredentials = true
    · rw [if_pos hC, respGet_setHeader_ne _ _ _ _ h1]
    · rw [if_neg hC]
  · rw [if_neg hV]
    by_cases hC : ch.allowCredentials = true
    · rw [if_pos hC, respGet_setHeader_ne _ _ _ _ h1]
    · rw [if_neg hC]

theorem respGet_corsFinish_vary (ch : cors) (origin : String) (hs : RespHeader)
    (h : respGet hs corsVaryHeader = none) :
    respGet (corsFinish ch origin hs) corsVaryHeader =
      if ch.allowedOrigins.length > 1 then some corsOriginHeader else none := by
  unfold corsFinish
  rw [respGet_setHeader_ne _ _ _ _ (by decide : corsVaryHeader ≠ corsAllowOriginHeader)]
  by_cases hV : ch.allowedOrigins.length > 1
  · rw [if_pos hV, if_pos hV, respGet_setHeader_same]
  · rw [if_neg hV, if_neg hV]
    by_cases hC : ch.allowCredentials = true
    · rw [if_pos hC,
        respGet_setHeader_ne _ _ _ _ (by decide : corsVaryHeader ≠ corsAllowCredentialsHeader), h]
    · rw [if_neg hC, h]

theorem respGet_preflightHeaders_allowHeaders (ch : cors) (m : String) (a : List String) :
    respGet (preflightHeaders ch m a) corsAllowHeadersHeader =
      if a.length > 0 then some (joinComma a) else none := by
  unfold preflightHeaders
  have step2 :
      respGet (if ch.maxAge > 0
          then setHeader (if a.length > 0
              then setHeader [] corsAllowHeadersHeader (joinComma a) else [])
            corsMaxAgeHeader (itoa ch.maxAge)
          else (if a.length > 0
              then setHeader [] corsAllowHeadersHeader (joinComma a) else []))
        corsAllowHeadersHeader =
      if a.length > 0 then some (joinComma a) else none := by
    by_cases hM : ch.maxAge > 0
    · rw [if_pos hM,
        respGet_setHeader_ne _ _ _ _ (by decide : corsAllowHeadersHeader ≠ corsMaxAgeHeader)]
      by_cases hA : a.length > 0
      · rw [if_pos hA, if_pos hA, respGet_setHeader_same]
      · rw [if_neg hA, if_neg hA, respGet_nil]
    · rw [if_neg hM]
      by_cases hA : a.length > 0
      · rw [if_pos hA, if_pos hA, respGet_setHeader_same]
      · rw [if_neg hA, if_neg hA, respGet_nil]
  by_cases hMM : cors.isMatch m defaultCorsMethods = false
  · rw [if_pos hMM,
      respGet_setHeader_ne _ _ _ _ (by decide : corsAllowHeadersHeader ≠ corsAllowMethodsHeader)]
    exact step2
  · rw [if_neg hMM]
    exact step2

theorem respGet_preflightHeaders_maxAge (ch : cors) (m : String) (a : List String) :
    respGet (preflightHeaders ch m a) corsMaxAgeHeader =
      if ch.maxAge > 0 then some (itoa ch.maxAge) else none := by
  unfold preflightHeaders
  have step1 :
      respGet (if a.length > 0
          then setHeader [] corsAllowHeadersHeader (joinComma a) else []) corsMaxAgeHeader =
      none := by
    by_cases hA : a.length > 0
    · rw [if_pos hA,
        respGet_setHeader_ne _ _ _ _ (by decide : corsMaxAgeHeader ≠ corsAllowHeadersHeader),
        respGet_nil]
    · rw [if_neg hA, respGet_nil]
  have step2 :
      respGet (if ch.maxAge > 0
          then setHeader (if a.length > 0
              then setHeader [] corsAllowHeadersHeader (joinComma a) else [])
            corsMaxAgeHeader (itoa ch.maxAge)
          else (if a.length > 0
              then setHeader [] corsAllowHeadersHeader (joinComma a) else []))
        corsMaxAgeHeader =
      if ch.maxAge > 0 then some (itoa ch.maxAge) else none := by
    by_cases hM : ch.maxAge > 0
    · rw [if_pos hM, if_pos hM, respGet_setHeader_same]
    · rw [if_neg hM, if_neg hM, step1]
  by_cases hMM : cors.isMatch m defaultCorsMethods = false
  · rw [if_pos hMM,
      respGet_setHeader_ne _ _ _ _ (by decide : corsMaxAgeHeader ≠ corsAllowMethodsHeader)]
    exact step2
  · rw [if_neg hMM]
    exact step2

theorem respGet_preflightHeaders_allowMethods (ch : cors) (m : String) (a : List String) :
    respGet (preflightHeaders ch m a) corsAllowMethodsHeader =
      if cors.isMatch m defaultCorsMethods = false then some m else none := by
  unfold preflightHeaders
  have step2 :
      respGet (if ch.maxAge > 0
          then setHeader (if a.length > 0
              then setHeader [] corsAllowHeadersHeader (joinComma a) else [])
            corsMaxAgeHeader (itoa ch.maxAge)
          else (if a.length > 0
              then setHeader [] corsAllowHeadersHeader (joinComma a) else []))
        corsAllowMethodsHeader =
      none := by
    have step1 :
        respGet (if a.length > 0
            then setHeader [] corsAllowHeadersHeader (joinComma a) else [])
          corsAllowMethodsHeader = none := by
      by_cases hA : a.length > 0
      · rw [if_pos hA,
          respGet_setHeader_ne _ _ _ _
            (by decide : corsAllowMethodsHeader ≠ corsAllowHeadersHeader), respGet_nil]
      · rw [if_neg hA, respGet_nil]
    by_cases hM : ch.maxAge > 0
    · rw [if_pos hM,
        respGet_setHeader_ne _ _ _ _ (by decide : corsAllowMethodsHeader ≠ corsMaxAgeHeader),
        step1]
    · rw [if_neg hM, step1]
  by_cases hMM : cors.isMatch m defaultCorsMethods = false
  · rw [if_pos hMM, if_pos hMM, respGet_setHeader_same]
  · rw [if_neg hMM, if_neg hMM, step2]

theorem respGet_preflightHeaders_other (ch : cors) (m : String) (a : List String) (k : String)
    (h1 : k ≠ corsAllowHeadersHeader) (h2 : k ≠ corsMaxAgeHeader)
    (h3 : k ≠ corsAllowMethodsHeader) :
    respGet (preflightHeaders ch m a) k = none := by
  unfold preflightHeaders
  have step1 :
      respGet (if a.length > 0
          then setHeader [] corsAllowHeadersHeader (joinComma a) else []) k = none := by
    by_cases hA : a.length > 0
    · rw [if_pos hA, respGet_setHeader_ne _ _ _ _ h1, respGet_nil]
    · rw [if_neg hA, respGet_nil]
  have step2 :
      respGet (if ch.maxAge > 0
          then setHeader (if a.length > 0
              then setHeader [] corsAllowHeadersHeader (joinComma a) else [])
            corsMaxAgeHeader (itoa ch.maxAge)
          else (if a.length > 0
              then setHeader [] corsAllowHeadersHeader (joinComma a) else [])) k = none := by
    by_cases hM : ch.maxAge > 0
    · rw [if_pos hM, respGet_setHeader_ne _ _ _ _ h2, step1]
    · rw [if_neg hM, step1]
  by_cases hMM : cors.isMatch m defaultCorsMethods = false
  · rw [if_pos hMM, respGet_setHeader_ne _ _ _ _ h3, step2]
  · rw [if_neg hMM, step2]

theorem respGet_simpleHeaders_other (ch : cors) (k : String)
    (h : k ≠ corsExposeHeadersHeader) :
    respGet (simpleHeaders ch) k = none := by
  unfold simpleHeaders
  by_cases hE : ch.exposedHeaders.length > 0
  · rw [if_pos hE, respGet_setHeader_ne _ _ _ _ h, respGet_nil]
  · rw [if_neg hE, respGet_nil]

/-!
Path lemmas for cors.ServeHTTP, one per control-flow branch of the Go
code.
-/

theorem ServeHTTP_origin_rejected (ch : cors) (r : Request)
    (hO : cors.isOriginAllowed ch (ReqHeader.get r.headers corsOriginHeader) = false) :
    cors.ServeHTTP ch r = corsReject 400 := by
  unfold cors.ServeHTTP
  simp [hO]

theorem ServeHTTP_ignored (ch : cors) (r : Request)
    (hO : cors.isOriginAllowed ch (ReqHeader.get r.headers corsOriginHeader) = true)
    (hM : r.method = corsOptionMethod)
    (hI : ch.ignoreOptions = true) :
    cors.ServeHTTP ch r = { status := 200, headers := [], wrappedInvoked := true } := by
  unfold cors.ServeHTTP
  simp [hO, hM, hI]

theorem ServeHTTP_missing_request_method (ch : cors) (r : Request)
    (hO : cors.isOriginAllowed ch (ReqHeader.get r.headers corsOriginHeader) = true)
    (hM : r.method = corsOptionMethod)
    (hI : ch.ignoreOptions = false)
    (hK : ReqHeader.containsKey r.headers corsRequestMethodHeader = false) :
    cors.ServeHTTP ch r = corsReject 400 := by
  unfold cors.ServeHTTP
  simp [hO, hM, hI, hK]

theorem ServeHTTP_method_rejected (ch : cors) (r : Request)
    (hO : cors.isOriginAllowed ch (ReqHeader.get r.headers corsOriginHeader) = true)
    (hM : r.method = corsOptionMethod)
    (hI : ch.ignoreOptions = false)
    (hK : ReqHeader.containsKey r.headers corsRequestMethodHeader = true)
    (hAM : cors.isMatch (ReqHeader.get r.headers corsRequestMethodHeader) ch.allowedMethods
      = false) :
    cors.ServeHTTP ch r = corsReject 405 := by
  unfold cors.ServeHTTP
  simp [hO, hM, hI, hK, hAM]

theorem ServeHTTP_header_rejected (ch : cors) (r : Request)
    (hO : cors.isOriginAllowed ch (ReqHeader.get r.headers corsOriginHeader) = true)
    (hM : r.method = corsOptionMethod)
    (hI : ch.ignoreOptions = false)
    (hK : ReqHeader.containsKey r.headers corsRequestMethodHeader = true)
    (hAM : cors.isMatch (ReqHeader.get r.headers corsRequestMethodHeader) ch.allowedMethods
      = true)
    (hC : collectAllowedHeaders ch
      (splitComma (ReqHeader.get r.headers corsRequestHeadersHeader)) = none) :
    cors.ServeHTTP ch r = corsReject 403 := by
  unfold cors.ServeHTTP
  simp [hO, hM, hI, hK, hAM, hC]

theorem ServeHTTP_preflight_success (ch : cors) (r : Request) (a : List String)
    (hO : cors.isOriginAllowed ch (ReqHeader.get r.headers corsOriginHeader) = true)
    (hM : r.method = corsOptionMethod)
    (hI : ch.ignoreOptions = false)
    (hK : ReqHeader.containsKey r.headers corsRequestMethodHeader = true)
    (hAM : cors.isMatch (ReqHeader.get r.headers corsRequestMethodHeader) ch.allowedMethods
      = true)
    (hC : collectAllowedHeaders ch
      (splitComma (ReqHeader.get r.headers corsRequestHeadersHeader)) = some a) :
    cors.ServeHTTP ch r =
      { status := 200
        headers := corsFinish ch (ReqHeader.get r.headers corsOriginHeader)
          (preflightHeaders ch (ReqHeader.get r.headers corsRequestMethodHeader) a)
        wrappedInvoked := false } := by
  unfold cors.ServeHTTP
  simp [hO, hM, hI, hK, hAM, hC]

theorem ServeHTTP_simple (ch : cors) (r : Request)
    (hO : cors.isOriginAllowed ch (ReqHeader.get r.headers corsOriginHeader) = true)
    (hM : r.method ≠ corsOptionMethod) :
    cors.ServeHTTP ch r =
      { status := 200
        headers := corsFinish ch (ReqHeader.get r.headers corsOriginHeader) (simpleHeaders ch)
        wrappedInvoked := true } := by
  unfold cors.ServeHTTP
  simp [hO, hM]

/-- Exhaustive case split over the branches of cors.ServeHTTP: every
outcome is one of a 400, 405 or 403 rejection, the bare pass-through of
an ignored OPTIONS request, a successful preflight answer, or a simple
CORS response. -/
theorem ServeHTTP_cases (ch : cors) (r : Request) :
    cors.ServeHTTP ch r = corsReject 400 ∨
    cors.ServeHTTP ch r = corsReject 405 ∨
    cors.ServeHTTP ch r = corsReject 403 ∨
    cors.ServeHTTP ch r = { status := 200, headers := [], wrappedInvoked := true } ∨
    (∃ a, cors.ServeHTTP ch r =
      { status := 200
        headers := corsFinish ch (ReqHeader.get r.headers corsOriginHeader)
          (preflightHeaders ch (ReqHeader.get r.headers corsRequestMethodHeader) a)
        wrappedInvoked := false }) ∨
    cors.ServeHTTP ch r =
      { status := 200
        headers := corsFinish ch (ReqHeader.get r.headers corsOriginHeader) (simpleHeaders ch)
        wrappedInvoked := true } := by
  cases hO : cors.isOriginAllowed ch (ReqHeader.get r.headers corsOriginHeader) with
  | false => exact Or.inl (ServeHTTP_origin_rejected ch r hO)
  | true =>
    by_cases hM : r.method = corsOptionMethod
    · cases hI : ch.ignoreOptions with
      | true => exact Or.inr (Or.inr (Or.inr (Or.inl (ServeHTTP_ignored ch r hO hM hI))))
      | false =>
        cases hK : ReqHeader.containsKey r.headers corsRequestMethodHeader with
        | false => exact Or.inl (ServeHTTP_missing_request_method ch r hO hM hI hK)
        | true =>
          cases hAM : cors.isMatch (ReqHeader.get r.headers corsRequestMethodHeader)
              ch.allowedMethods with
          | false => exact Or.inr (Or.inl (ServeHTTP_method_rejected ch r hO hM hI hK hAM))
          | true =>
            cases hC : collectAllowedHeaders ch
                (splitComma (ReqHeader.get r.headers corsRequestHeadersHeader)) with
            | none =>
              exact Or.inr (Or.inr (Or.inl (ServeHTTP_header_rejected ch r hO hM hI hK hAM hC)))
            | some a =>
              exact Or.inr (Or.inr (Or.inr (Or.inr (Or.inl
                ⟨a, ServeHTTP_preflight_success ch r a hO hM hI hK hAM hC⟩))))
    · exact Or.inr (Or.inr (Or.inr (Or.inr (Or.inr (ServeHTTP_simple ch r hO hM)))))

/-- Canonical forms of the requested header entries that are neither
empty nor in the safelisted default header set: exactly the entries the
preflight loop keeps for the Allow-Headers response value. -/
def requestedNonSafelisted (l : List String) : List String :=
  (l.map (fun v => CanonicalHeaderKey (trimSpace v))).filter
    (fun c => !(c == "" || cors.isMatch c defaultCorsHeaders))

/-- When every requested entry is empty, safelisted or allowed, the
preflight header loop succeeds and collects exactly the non-safelisted
entries in order. -/
theorem collectAllowedHeaders_eq_of_allowed (ch : cors) (l : List String)
    (h : ∀ v ∈ l,
      (CanonicalHeaderKey (trimSpace v) == "" ||
        cors.isMatch (CanonicalHeaderKey (trimSpace v)) defaultCorsHeaders) = true ∨
      cors.isMatch (CanonicalHeaderKey (trimSpace v)) ch.allowedHeaders = true) :
    collectAllowedHeaders ch l = some (requestedNonSafelisted l) := by
  induction l with
  | nil => rfl
  | cons v rest ih =>
    have hrest := ih (fun w hw => h w (List.mem_cons_of_mem v hw))
    have hv := h v (List.mem_cons_self v rest)
    unfold collectAllowedHeaders requestedNonSafelisted
    cases hsk : (CanonicalHeaderKey (trimSpace v) == "" ||
        cors.isMatch (CanonicalHeaderKey (trimSpace v)) defaultCorsHeaders) with
    | true =>
      simp only [hsk, if_pos, List.map_cons, List.filter_cons, Bool.not_true, if_neg]
      simpa [requestedNonSafelisted] using hrest
    | false =>
      have hall : cors.isMatch (CanonicalHeaderKey (trimSpace v)) ch.allowedHeaders = true := by
        rcases hv with hv | hv
        · rw [hv] at hsk; cases hsk
        · exact hv
      simp only [hsk, List.map_cons, List.filter_cons, Bool.not_false]
      simp only [Bool.false_eq_true, if_false, hall]
      simp [hall, hrest, requestedNonSafelisted]

/-- Any single requested entry that is nonempty, not safelisted and not
in allowedHeaders makes the preflight header loop abort, regardless of
the remaining entries: the all-or-nothing 403 behaviour. -/
theorem collectAllowedHeaders_none_of_bad (ch : cors) (l : List String) (v : String)
    (hv : v ∈ l)
    (h1 : (CanonicalHeaderKey (trimSpace v) == "" ||
      cors.isMatch (CanonicalHeaderKey (trimSpace v)) defaultCorsHeaders) = false)
    (h2 : cors.isMatch (CanonicalHeaderKey (trimSpace v)) ch.allowedHeaders = false) :
    collectAllowedHeaders ch l = none := by
  induction l with
  | nil => cases hv
  | cons w rest ih =>
    unfold collectAllowedHeaders
    rcases List.mem_cons.mp hv with rfl | hv'
    · simp [h1, h2]
    · cases hsk : (CanonicalHeaderKey (trimSpace w) == "" ||
          cors.isMatch (CanonicalHeaderKey (trimSpace w)) defaultCorsHeaders) with
      | true => simpa [hsk] using ih hv'
      | false =>
        cases hm : cors.isMatch (CanonicalHeaderKey (trimSpace w)) ch.allowedHeaders with
        | false => simp [hsk, hm]
        | true => simp [hsk, hm, ih hv']

/-- Folding any sequence of AllowedOrigins applications preserves the
invariant that the committed origin list is the singleton wildcard or
holds no wildcard entry. -/
theorem allowedOrigins_foldl_inv (argss : List (List String)) (ch : cors)
    (h : ch.allowedOrigins = [corsOriginMatchAll] ∨
      cors.isMatch corsOriginMatchAll ch.allowedOrigins = false) :
    ((argss.map AllowedOrigins).foldl (fun ch option => option ch) ch).allowedOrigins
        = [corsOriginMatchAll] ∨
    cors.isMatch corsOriginMatchAll
      ((argss.map AllowedOrigins).foldl (fun ch option => option ch) ch).allowedOrigins
        = false := by
  induction argss generalizing ch with
  | nil => simpa using h
  | cons l rest ih =>
    simp only [List.map_cons, List.foldl_cons]
    apply ih
    unfold AllowedOrigins
    cases hw : l.any (fun v => v == corsOriginMatchAll) with
    | true => simp [hw]
    | false =>
      right
      simp [cors.isMatch, hw]

/-!
Claim theorems.
-/

/-- C1: the claim states that a request without an Origin header gets no
CORS headers and always reaches the wrapped handler unmodified.  The
code instead rejects it: isOriginAllowed refuses the empty origin, so
ServeHTTP writes 400 Bad Request and returns before the deferred handler
call is even registered.  The repository test TestCORSHandler, which
sends a GET without Origin through CORS()(handler) and expects status
200, fails against this code, so the claim is right and the code wrong.
This theorem evaluates the code at that failing input. -/
theorem claim1_no_origin_bug :
    cors.ServeHTTP (parseCORSOptions []) { method := "GET", headers := [] } =
      { status := 400, headers := [], wrappedInvoked := false } := by decide

/-- C2 counterexample: under the default policy (wildcard origins, no
credentials), a GET carrying Origin http://a.example.com is answered
with Access-Control-Allow-Origin set to the literal origin; the claimed
wildcard value is not emitted. -/
theorem claim2_counterexample :
    cors.ServeHTTP (parseCORSOptions [])
        { method := "GET", headers := [("Origin", ["http://a.example.com"])] } =
      { status := 200
        headers := [(corsAllowOriginHeader, "http://a.example.com")]
        wrappedInvoked := true } ∧
    (respGet (cors.ServeHTTP (parseCORSOptions [])
        { method := "GET", headers := [("Origin", ["http://a.example.com"])] }).headers
      corsAllowOriginHeader == some corsOriginMatchAll) = false := by decide

/-- C2 amended: whenever the engine emits Access-Control-Allow-Origin at
all, the value is the literal request origin - a wildcard policy is
never reflected as a * header value; in the default-policy scenario the
GET with Origin http://a.example.com yields status 200 with the literal
origin echoed and the wrapped handler invoked. -/
theorem claim2_allow_origin_literal :
    (∀ (ch : cors) (r : Request),
      respGet (cors.ServeHTTP ch r).headers corsAllowOriginHeader = none ∨
      respGet (cors.ServeHTTP ch r).headers corsAllowOriginHeader =
        some (ReqHeader.get r.headers corsOriginHeader)) ∧
    cors.ServeHTTP (parseCORSOptions [])
        { method := "GET", headers := [("Origin", ["http://a.example.com"])] } =
      { status := 200
        headers := [(corsAllowOriginHeader, "http://a.example.com")]
        wrappedInvoked := true } := by
  constructor
  · intro ch r
    rcases ServeHTTP_cases ch r with h | h | h | h | ⟨a, h⟩ | h
    · rw [h]; left; rfl
    · rw [h]; left; rfl
    · rw [h]; left; rfl
    · rw [h]; left; rfl
    · rw [h]; right; exact respGet_corsFinish_allowOrigin _ _ _
    · rw [h]; right; exact respGet_corsFinish_allowOrigin _ _ _
  · decide

/-- C3: the claim states that AllowedMethods adds each uppercased,
trimmed token to the allowed-method set, so that under
AllowedMethods(["DELETE"]) a preflight requesting DELETE succeeds with
Access-Control-Allow-Methods: DELETE.  The code instead appends the
normalized method to ch.allowedHeaders (cors.go line 268) while testing
membership in ch.allowedMethods on the line before, leaving the
allowed-method set at its defaults; the preflight is therefore rejected
with 405 and no Allow-Methods header.  The spec and the surrounding code
make the intent (append to allowedMethods) clear, so this is a slip in
the code.  This theorem evaluates both the committed policy and the
failing request. -/
theorem claim3_allowed_methods_bug :
    (parseCORSOptions [AllowedMethods ["DELETE"]]).allowedMethods = defaultCorsMethods ∧
    (parseCORSOptions [AllowedMethods ["DELETE"]]).allowedHeaders
      = defaultCorsHeaders ++ ["DELETE"] ∧
    cors.ServeHTTP (parseCORSOptions [AllowedMethods ["DELETE"]])
        { method := "OPTIONS"
          headers := [("Origin", ["http://a.example.com"]),
            ("Access-Control-Request-Method", ["DELETE"])] } =
      { status := 405, headers := [], wrappedInvoked := false } := by decide

/-- C6 counterexample: a policy with two explicit origins, exposed
headers, credentials and IgnoreOptions, receiving an OPTIONS request
with an allowed Origin, produces a response with NO headers at all -
the engine returns before the expose-header and step-5 writes - while
the claim requires Access-Control-Expose-Headers, Allow-Credentials,
Vary and Allow-Origin to be set. -/
theorem claim6_counterexample :
    cors.ServeHTTP
        (parseCORSOptions [AllowedOrigins ["http://a.com", "http://b.com"],
          ExposedHeaders ["X-Foo"], AllowCredentials, IgnoreOptions])
        { method := "OPTIONS", headers := [("Origin", ["http://a.com"])] } =
      { status := 200, headers := [], wrappedInvoked := true } := by decide

/-- C6 amended: under IgnoreOptions, an OPTIONS request with an allowed
Origin invokes the wrapped handler, and the engine adds no headers at
all - neither Expose-Headers nor any of the credential, Vary or
Allow-Origin headers. -/
theorem claim6_ignored_preflight (ch : cors) (r : Request)
    (hO : cors.isOriginAllowed ch (ReqHeader.get r.headers corsOriginHeader) = true)
    (hM : r.method = corsOptionMethod)
    (hI : ch.ignoreOptions = true) :
    cors.ServeHTTP ch r = { status := 200, headers := [], wrappedInvoked := true } :=
  ServeHTTP_ignored ch r hO hM hI

/-- Witness for the amended C6 theorem at a concrete policy and
request. -/
theorem claim6_ignored_preflight_witness :
    cors.ServeHTTP (parseCORSOptions [ExposedHeaders ["X-Foo"], IgnoreOptions])
        { method := "OPTIONS", headers := [("Origin", ["http://a.example.com"])] } =
      { status := 200, headers := [], wrappedInvoked := true } :=
  claim6_ignored_preflight _ _ (by decide) (by decide) (by decide)

/-- C4: for every handled preflight (OPTIONS, allowed Origin, OPTIONS
not ignored, Access-Control-Request-Method present) whose requested
method is allowed and whose requested header entries are each empty,
safelisted or allowed, the response has status 200, the wrapped handler
is not invoked, Access-Control-Allow-Headers is exactly the comma-joined
list of the non-safelisted requested headers and is omitted when that
list is empty, and Access-Control-Allow-Methods echoes the requested
method exactly when the method is not in the safelisted set
GET, HEAD, POST. -/
theorem claim4_preflight_success (ch : cors) (r : Request)
    (hO : cors.isOriginAllowed ch (ReqHeader.get r.headers corsOriginHeader) = true)
    (hM : r.method = corsOptionMethod)
    (hI : ch.ignoreOptions = false)
    (hK : ReqHeader.containsKey r.headers corsRequestMethodHeader = true)
    (hAM : cors.isMatch (ReqHeader.get r.headers corsRequestMethodHeader) ch.allowedMethods
      = true)
    (hH : ∀ v ∈ splitComma (ReqHeader.get r.headers corsRequestHeadersHeader),
      (CanonicalHeaderKey (trimSpace v) == "" ||
        cors.isMatch (CanonicalHeaderKey (trimSpace v)) defaultCorsHeaders) = true ∨
      cors.isMatch (CanonicalHeaderKey (trimSpace v)) ch.allowedHeaders = true) :
    (cors.ServeHTTP ch r).status = 200 ∧
    (cors.ServeHTTP ch r).wrappedInvoked = false ∧
    respGet (cors.ServeHTTP ch r).headers corsAllowHeadersHeader =
      (if requestedNonSafelisted
          (splitComma (ReqHeader.get r.headers corsRequestHeadersHeader)) = []
       then none
       else some (joinComma (requestedNonSafelisted
         (splitComma (ReqHeader.get r.headers corsRequestHeadersHeader))))) ∧
    respGet (cors.ServeHTTP ch r).headers corsAllowMethodsHeader =
      (if cors.isMatch (ReqHeader.get r.headers corsRequestMethodHeader) defaultCorsMethods
          = false
       then some (ReqHeader.get r.headers corsRequestMethodHeader)
       else none) := by
  have hC := collectAllowedHeaders_eq_of_allowed ch _ hH
  have hS := ServeHTTP_preflight_success ch r _ hO hM hI hK hAM hC
  rw [hS]
  refine ⟨rfl, rfl, ?_, ?_⟩
  · rw [respGet_corsFinish_other _ _ _ _ (by decide) (by decide) (by decide),
      respGet_preflightHeaders_allowHeaders]
    by_cases hA : requestedNonSafelisted
        (splitComma (ReqHeader.get r.headers corsRequestHeadersHeader)) = []
    · rw [if_neg (by simp [hA]), if_pos hA]
    · rw [if_pos (List.length_pos.mpr hA), if_neg hA]
  · rw [respGet_corsFinish_other _ _ _ _ (by decide) (by decide) (by decide),
      respGet_preflightHeaders_allowMethods]

/-- Witness for C4 at a concrete policy with AllowedHeaders
Content-Type and a preflight requesting POST with headers content-type
and accept: the accept entry is safelisted, so only Content-Type is
echoed, and POST is safelisted, so Allow-Methods is omitted. -/
theorem claim4_preflight_success_witness :
    (cors.ServeHTTP (parseCORSOptions [AllowedHeaders ["Content-Type"]])
      { method := "OPTIONS"
        headers := [("Origin", ["http://a.example.com"]),
          ("Access-Control-Request-Method", ["POST"]),
          ("Access-Control-Request-Headers", ["content-type, accept"])] }).status = 200 ∧
    (cors.ServeHTTP (parseCORSOptions [AllowedHeaders ["Content-Type"]])
      { method := "OPTIONS"
        headers := [("Origin", ["http://a.example.com"]),
          ("Access-Control-Request-Method", ["POST"]),
          ("Access-Control-Request-Headers", ["content-type, accept"])] }).wrappedInvoked
      = false ∧
    respGet (cors.ServeHTTP (parseCORSOptions [AllowedHeaders ["Content-Type"]])
      { method := "OPTIONS"
        headers := [("Origin", ["http://a.example.com"]),
          ("Access-Control-Request-Method", ["POST"]),
          ("Access-Control-Request-Headers", ["content-type, accept"])] }).headers
      corsAllowHeadersHeader = some "Content-Type" ∧
    respGet (cors.ServeHTTP (parseCORSOptions [AllowedHeaders ["Content-Type"]])
      { method := "OPTIONS"
        headers := [("Origin", ["http://a.example.com"]),
          ("Access-Control-Request-Method", ["POST"]),
          ("Access-Control-Request-Headers", ["content-type, accept"])] }).headers
      corsAllowMethodsHeader = none := by
  have h := claim4_preflight_success
    (parseCORSOptions [AllowedHeaders ["Content-Type"]])
    { method := "OPTIONS"
      headers := [("Origin", ["http://a.example.com"]),
        ("Access-Control-Request-Method", ["POST"]),
        ("Access-Control-Request-Headers", ["content-type, accept"])] }
    (by decide) (by decide) (by decide) (by decide) (by decide) (by decide)
  refine ⟨h.1, h.2.1, ?_, ?_⟩
  · rw [h.2.2.1]; decide
  · rw [h.2.2.2]; decide

/-- C5: every rejection path is terminal with the wrapped handler never
invoked: a disallowed (or absent) origin gives 400, an intercepted
OPTIONS request without the Access-Control-Request-Method key gives 400,
a requested method outside the committed allowed-method set gives 405,
and any requested header that is neither empty, safelisted nor allowed
aborts the whole preflight with 403 regardless of the other entries. -/
theorem claim5_rejections_terminal :
    (∀ (ch : cors) (r : Request),
      cors.isOriginAllowed ch (ReqHeader.get r.headers corsOriginHeader) = false →
      cors.ServeHTTP ch r = corsReject 400) ∧
    (∀ (ch : cors) (r : Request),
      cors.isOriginAllowed ch (ReqHeader.get r.headers corsOriginHeader) = true →
      r.method = corsOptionMethod →
      ch.ignoreOptions = false →
      ReqHeader.containsKey r.headers corsRequestMethodHeader = false →
      cors.ServeHTTP ch r = corsReject 400) ∧
    (∀ (ch : cors) (r : Request),
      cors.isOriginAllowed ch (ReqHeader.get r.headers corsOriginHeader) = true →
      r.method = corsOptionMethod →
      ch.ignoreOptions = false →
      ReqHeader.containsKey r.headers corsRequestMethodHeader = true →
      cors.isMatch (ReqHeader.get r.headers corsRequestMethodHeader) ch.allowedMethods
        = false →
      cors.ServeHTTP ch r = corsReject 405) ∧
    (∀ (ch : cors) (r : Request) (v : String),
      cors.isOriginAllowed ch (ReqHeader.get r.headers corsOriginHeader) = true →
      r.method = corsOptionMethod →
      ch.ignoreOptions = false →
      ReqHeader.containsKey r.headers corsRequestMethodHeader = true →
      cors.isMatch (ReqHeader.get r.headers corsRequestMethodHeader) ch.allowedMethods
        = true →
      v ∈ splitComma (ReqHeader.get r.headers corsRequestHeadersHeader) →
      (CanonicalHeaderKey (trimSpace v) == "" ||
        cors.isMatch (CanonicalHeaderKey (trimSpace v)) defaultCorsHeaders) = false →
      cors.isMatch (CanonicalHeaderKey (trimSpace v)) ch.allowedHeaders = false →
      cors.ServeHTTP ch r = corsReject 403) := by
  refine ⟨?_, ?_, ?_, ?_⟩
  · intro ch r hO
    exact ServeHTTP_origin_rejected ch r hO
  · intro ch r hO hM hI hK
    exact ServeHTTP_missing_request_method ch r hO hM hI hK
  · intro ch r hO hM hI hK hAM
    exact ServeHTTP_method_rejected ch r hO hM hI hK hAM
  · intro ch r v hO hM hI hK hAM hv h1 h2
    exact ServeHTTP_header_rejected ch r hO hM hI hK hAM
      (collectAllowedHeaders_none_of_bad ch _ v hv h1 h2)

/-- Witness for C5: one concrete request per rejection conjunct -
disallowed origin, missing request-method key, disallowed method and
disallowed header. -/
theorem claim5_rejections_terminal_witness :
    cors.ServeHTTP (parseCORSOptions [AllowedOrigins ["http://a.com"]])
      { method := "GET", headers := [("Origin", ["http://b.com"])] } = corsReject 400 ∧
    cors.ServeHTTP (parseCORSOptions [])
      { method := "OPTIONS", headers := [("Origin", ["http://a.example.com"])] }
      = corsReject 400 ∧
    cors.ServeHTTP (parseCORSOptions [])
      { method := "OPTIONS"
        headers := [("Origin", ["http://a.example.com"]),
          ("Access-Control-Request-Method", ["DELETE"])] } = corsReject 405 ∧
    cors.ServeHTTP (parseCORSOptions [])
      { method := "OPTIONS"
        headers := [("Origin", ["http://a.example.com"]),
          ("Access-Control-Request-Method", ["GET"]),
          ("Access-Control-Request-Headers", ["X-Unknown"])] } = corsReject 403 :=
  ⟨claim5_rejections_terminal.1 _ _ (by decide),
   claim5_rejections_terminal.2.1 _ _ (by decide) (by decide) (by decide) (by decide),
   claim5_rejections_terminal.2.2.1 _ _
     (by decide) (by decide) (by decide) (by decide) (by decide),
   claim5_rejections_terminal.2.2.2 _ _ "X-Unknown"
     (by decide) (by decide) (by decide) (by decide) (by decide)
     (by decide) (by decide) (by decide)⟩

/-- C7: every committed max-age value is at most 600 (MaxAge silently
clamps larger configured values); under MaxAge 3500 a successful
preflight emits Access-Control-Max-Age 600; and whenever the committed
value is at most zero the Access-Control-Max-Age header is omitted on
every response. -/
theorem claim7_max_age :
    (∀ (age : Int) (ch : cors), (MaxAge age ch).maxAge ≤ 600) ∧
    respGet (cors.ServeHTTP (parseCORSOptions [MaxAge 3500])
        { method := "OPTIONS"
          headers := [("Origin", ["http://a.example.com"]),
            ("Access-Control-Request-Method", ["GET"])] }).headers corsMaxAgeHeader
      = some "600" ∧
    (∀ (ch : cors) (r : Request), ch.maxAge ≤ 0 →
      respGet (cors.ServeHTTP ch r).headers corsMaxAgeHeader = none) := by
  refine ⟨?_, by decide, ?_⟩
  · intro age ch
    simp only [MaxAge]
    split <;> omega
  · intro ch r hA
    rcases ServeHTTP_cases ch r with h | h | h | h | ⟨a, h⟩ | h
    · rw [h]; rfl
    · rw [h]; rfl
    · rw [h]; rfl
    · rw [h]; rfl
    · rw [h,
        respGet_corsFinish_other _ _ _ _ (by decide) (by decide) (by decide),
        respGet_preflightHeaders_maxAge, if_neg (by omega : ¬ ch.maxAge > 0)]
    · rw [h,
        respGet_corsFinish_other _ _ _ _ (by decide) (by decide) (by decide),
        respGet_simpleHeaders_other _ _ (by decide)]

/-- Witness for the quantified parts of C7: MaxAge 3500 commits a value
at most 600, and a policy committed with MaxAge minus five omits the
max-age header on a successful preflight. -/
theorem claim7_max_age_witness :
    (MaxAge 3500 corsDefault).maxAge ≤ 600 ∧
    respGet (cors.ServeHTTP (parseCORSOptions [MaxAge (-5)])
        { method := "OPTIONS"
          headers := [("Origin", ["http://a.example.com"]),
            ("Access-Control-Request-Method", ["GET"])] }).headers corsMaxAgeHeader
      = none :=
  ⟨claim7_max_age.1 3500 corsDefault, claim7_max_age.2.2 _ _ (by decide)⟩

/-- C8: on every response on which the engine emits its CORS headers
(equivalently, on which Access-Control-Allow-Origin is present), the
Vary header is set to Origin exactly when more than one origin is
configured; a single-origin or wildcard-only committed list (always of
length one) never produces Vary, and no rejected or ignored request
carries Vary either, since both sides of the equivalence are then
false. -/
theorem claim8_vary_iff (ch : cors) (r : Request) :
    respGet (cors.ServeHTTP ch r).headers corsVaryHeader = some corsOriginHeader ↔
      ((respGet (cors.ServeHTTP ch r).headers corsAllowOriginHeader).isSome = true ∧
        ch.allowedOrigins.length > 1) := by
  rcases ServeHTTP_cases ch r with h | h | h | h | ⟨a, h⟩ | h
  · rw [h]; simp [corsReject, respGet]
  · rw [h]; simp [corsReject, respGet]
  · rw [h]; simp [corsReject, respGet]
  · rw [h]; simp [respGet]
  · rw [h]
    have hv := respGet_corsFinish_vary ch (ReqHeader.get r.headers corsOriginHeader)
      (preflightHeaders ch (ReqHeader.get r.headers corsRequestMethodHeader) a)
      (respGet_preflightHeaders_other _ _ _ _ (by decide) (by decide) (by decide))
    have ha := respGet_corsFinish_allowOrigin ch (ReqHeader.get r.headers corsOriginHeader)
      (preflightHeaders ch (ReqHeader.get r.headers corsRequestMethodHeader) a)
    rw [hv, ha]
    by_cases hl : ch.allowedOrigins.length > 1
    · simp [hl]
    · simp [hl]
  · rw [h]
    have hv := respGet_corsFinish_vary ch (ReqHeader.get r.headers corsOriginHeader)
      (simpleHeaders ch) (respGet_simpleHeaders_other _ _ (by decide))
    have ha := respGet_corsFinish_allowOrigin ch (ReqHeader.get r.headers corsOriginHeader)
      (simpleHeaders ch)
    rw [hv, ha]
    by_cases hl : ch.allowedOrigins.length > 1
    · simp [hl]
    · simp [hl]

/-- Witness for C8 at a two-origin policy: the accepted simple response
carries Vary: Origin, obtained through the equivalence. -/
theorem claim8_vary_iff_witness :
    respGet (cors.ServeHTTP (parseCORSOptions [AllowedOrigins ["http://a.com", "http://b.com"]])
        { method := "GET", headers := [("Origin", ["http://a.com"])] }).headers corsVaryHeader
      = some corsOriginHeader :=
  (claim8_vary_iff (parseCORSOptions [AllowedOrigins ["http://a.com", "http://b.com"]])
      { method := "GET", headers := [("Origin", ["http://a.com"])] }).mpr
    ⟨by decide, by decide⟩

/-- C9: after any sequence of AllowedOrigins applications starting from
the defaults, the committed origin list is either exactly the singleton
wildcard or contains no wildcard entry; and supplying the wildcard
anywhere in an origin list collapses the committed list to the singleton
wildcard, regardless of the other entries or of the previous state. -/
theorem claim9_wildcard_collapse :
    (∀ argss : List (List String),
      (parseCORSOptions (argss.map AllowedOrigins)).allowedOrigins = [corsOriginMatchAll] ∨
      cors.isMatch corsOriginMatchAll
        (parseCORSOptions (argss.map AllowedOrigins)).allowedOrigins = false) ∧
    (∀ (ch : cors) (l : List String),
      cors.isMatch corsOriginMatchAll l = true →
      (AllowedOrigins l ch).allowedOrigins = [corsOriginMatchAll]) := by
  constructor
  · intro argss
    exact allowedOrigins_foldl_inv argss corsDefault (Or.inl rfl)
  · intro ch l hw
    have ha : l.any (fun v => v == corsOriginMatchAll) = true := hw
    unfold AllowedOrigins
    simp [ha]

/-- Witness for C9: the wildcard among explicit origins collapses the
committed list to the singleton wildcard. -/
theorem claim9_wildcard_collapse_witness :
    (AllowedOrigins ["http://a.com", "*"] corsDefault).allowedOrigins
      = [corsOriginMatchAll] :=
  claim9_wildcard_collapse.2 corsDefault ["http://a.com", "*"] (by decide)

/-- C10: an intercepted OPTIONS request with an allowed Origin whose
Access-Control-Request-Method key is present but maps to the empty
string passes the key-existence check (which tests only map membership)
and is then rejected as a disallowed method with 405, not as a malformed
preflight with 400, because the empty string matches no allowed-method
entry; the wrapped handler is not invoked.  The hypothesis that the
empty string is not an allowed method holds for every policy the option
constructors can build: the committed allowed-method list is always the
nonempty-token default list. -/
theorem claim10_empty_request_method (ch : cors) (r : Request)
    (hO : cors.isOriginAllowed ch (ReqHeader.get r.headers corsOriginHeader) = true)
    (hM : r.method = corsOptionMethod)
    (hI : ch.ignoreOptions = false)
    (hK : ReqHeader.containsKey r.headers corsRequestMethodHeader = true)
    (hE : ReqHeader.get r.headers corsRequestMethodHeader = "")
    (hNE : cors.isMatch "" ch.allowedMethods = false) :
    cors.ServeHTTP ch r = corsReject 405 := by
  apply ServeHTTP_method_rejected ch r hO hM hI hK
  rw [hE]
  exact hNE

/-- Witness for C10: the default policy with an empty
Access-Control-Request-Method value answers 405 without invoking the
wrapped handler. -/
theorem claim10_empty_request_method_witness :
    cors.ServeHTTP (parseCORSOptions [])
        { method := "OPTIONS"
          headers := [("Origin", ["http://a.example.com"]),
            ("Access-Control-Request-Method", [""])] } = corsReject 405 :=
  claim10_empty_request_method _ _
    (by decide) (by decide) (by decide) (by decide) (by decide) (by decide)
